import Mathlib

/-!
Shallow embedding of `src/bin/cli.js` (temha_mcp_proxy): an MCP STDIO to HTTP
relay with OAuth2/OIDC discovery, dynamic client registration, PKCE login,
token refresh, and a line-delimited JSON-RPC loop.

Network calls and the system clock are modelled as oracles in an `Env`
record; the three persisted JSON records (discovery document, client
registration, token record) and the network-call counters live in a world
record `W` that every operation threads.  JavaScript truthiness of the
string fields tested by the source (`cached.issuer`, `tok.refresh_token`,
`as.registration_endpoint`, ...) is modelled explicitly ("" and absent are
both falsy).
-/

namespace TemhaProxy

/-- JSON values as relayed by the proxy (integers suffice for the ids and
error codes the program constructs). -/
inductive Json where
  | null : Json
  | bool : Bool → Json
  | num : Int → Json
  | str : String → Json
  | arr : List Json → Json
  | obj : List (String × Json) → Json
deriving Inhabited

/-- JavaScript truthiness for an optional string field: absent and "" are falsy. -/
def jsTruthyStr : Option String → Bool
  | none => false
  | some s => s ≠ ""

/-- JavaScript `a || b` on optional string values ("" counts as falsy). -/
def jsOrStr (a b : Option String) : Option String :=
  if jsTruthyStr a then a else b

/-- Escape one character the way `JSON.stringify` does for the characters the
proxy emits. -/
def escChar (c : Char) : String :=
  if c = '"' then "\\\""
  else if c = '\\' then "\\\\"
  else if c = '\n' then "\\n"
  else if c = '\r' then "\\r"
  else if c = '\t' then "\\t"
  else String.mk [c]

def escList : List Char → String
  | [] => ""
  | c :: cs => escChar c ++ escList cs

/-- String-body escaping used by the `JSON.stringify` model. -/
def escapeJs (s : String) : String := escList s.data

mutual

/-- Model of `JSON.stringify` (object key order preserved, as in V8). -/
def stringifyJson : Json → String
  | .null => "null"
  | .bool true => "true"
  | .bool false => "false"
  | .num n => toString n
  | .str s => "\"" ++ escapeJs s ++ "\""
  | .arr xs => "[" ++ stringifyArr xs ++ "]"
  | .obj fs => "\x7b" ++ stringifyObj fs ++ "\x7d"

def stringifyArr : List Json → String
  | [] => ""
  | [x] => stringifyJson x
  | x :: y :: xs => stringifyJson x ++ "," ++ stringifyArr (y :: xs)

def stringifyObj : List (String × Json) → String
  | [] => ""
  | [(k, v)] => "\"" ++ escapeJs k ++ "\":" ++ stringifyJson v
  | (k, v) :: f :: fs =>
      "\"" ++ escapeJs k ++ "\":" ++ stringifyJson v ++ "," ++ stringifyObj (f :: fs)

end

/-- Persisted token record (`tokens.json`): the fields the program reads. -/
structure Tok where
  access_token : String
  refresh_token : Option String
  expires_at : Int
deriving DecidableEq

/-- Body of a successful token-endpoint response. -/
structure TokBody where
  access_token : String
  refresh_token : Option String
  expires_in : Option Int
deriving DecidableEq

/-- Persisted authorization-server metadata (`as-metadata.json`). -/
structure AsMeta where
  issuer : Option String
  authorization_endpoint : Option String
  token_endpoint : Option String
  registration_endpoint : Option String
deriving DecidableEq

/-- Persisted client registration (`client-metadata.json`). -/
structure ClientMeta where
  issuer : String
  client_id : String
  redirect_uris : List String
deriving DecidableEq

/-- Protected-resource metadata (RFC 9728) fields the program inspects. -/
structure Prm where
  authorization_servers : Option (List String)
  authorization_server : Option String
  issuer : Option String
deriving DecidableEq

/-- Body of a dynamic-registration response. -/
structure RegResp where
  client_id : String
  redirect_uris : Option (List String)
deriving DecidableEq

/-- An HTTP response to a forwarded JSON-RPC request. -/
structure FwdResp where
  status : Nat
  body : Json
  text : String

/-- `res.ok` of the fetch API: status in [200, 300). -/
def fwdOk (r : FwdResp) : Bool := 200 ≤ r.status ∧ r.status < 300

/-- Grant type of a token-endpoint POST. -/
inductive Grant where
  | refreshGrant : Grant
  | authCode : Grant
deriving DecidableEq

/-- Network events, in the order the program issues them. A forward event
records the bearer token it was sent with. -/
inductive Ev where
  | prmFetch : Ev
  | asFetch : Ev
  | regPost : Ev
  | tokenPost : Grant → Ev
  | loginStart : Ev
  | forwardPost : String → Ev
deriving DecidableEq

/-- Oracles for the clock, every remote response, and the interactive
callback outcome. Token-endpoint and forward responses are indexed by how
many such calls were made before, so successive calls may differ. -/
structure Env where
  now : Int
  prmResp : Except String Prm
  asMetaResp : Except String AsMeta
  regResp : Except String RegResp
  tokenResps : Nat → Except String TokBody
  loginCb : Except String String
  forwardResps : Nat → FwdResp

/-- The world threaded through the pipeline: the three persisted records,
call counters, and the event trace. -/
structure W where
  disc : Option AsMeta
  client : Option ClientMeta
  tokens : Option Tok
  tokenCalls : Nat
  forwardCalls : Nat
  events : List Ev

/-- Append one network event to the trace. -/
def logEv (w : W) (e : Ev) : W := { w with events := w.events ++ [e] }

/-- `asWellKnownFromIssuer` well-known segment. -/
def wellKnownSeg : String := "/.well-known/oauth-authorization-server"

/-- Strip all trailing slashes, as `replace(/\/+$/, '')` does. -/
def stripTrailingSlashes (p : String) : String :=
  String.mk ((p.data.reverse.dropWhile (fun c => c = '/')).reverse)

/-- Split `scheme://rest`, modelling the part of WHATWG `new URL` the
program touches for plain `scheme://host/path` issuers. -/
def splitScheme : List Char → Option (List Char × List Char)
  | [] => none
  | ':' :: '/' :: '/' :: rest => some ([], rest)
  | c :: rest =>
      match splitScheme rest with
      | none => none
      | some (a, b) => some (c :: a, b)

/-- Model of `new URL` for plain `scheme://host[/path]` issuer URLs:
returns (protocol, host, pathname); pathname is "/" when absent, as in
WHATWG URL. -/
def parseUrl (s : String) : Option (String × String × String) :=
  match splitScheme s.data with
  | none => none
  | some (scheme, rest) =>
      if scheme = [] then none
      else
        let host := rest.takeWhile (fun c => c ≠ '/')
        let after := rest.dropWhile (fun c => c ≠ '/')
        if host = [] then none
        else
          let pathname := if after = [] then ['/'] else after
          some (String.mk (scheme ++ [':']), String.mk host, String.mk pathname)

/-- Body of `asWellKnownFromIssuer` after `new URL`: build the metadata URL
from the issuer's protocol, host and pathname. -/
def asWellKnownCore (protocol host pathname : String) : String :=
  let base := protocol ++ "//" ++ host
  let path := stripTrailingSlashes pathname
  if path ≠ "" ∧ path ≠ "/" then base ++ wellKnownSeg ++ path
  else base ++ wellKnownSeg

/-- `asWellKnownFromIssuer` from the source: RFC 8414 well-known URL
derivation, `none` when the issuer fails to parse as a URL. -/
def asWellKnownFromIssuer (issuer : String) : Option String :=
  match parseUrl issuer with
  | none => none
  | some (protocol, host, pathname) => some (asWellKnownCore protocol host pathname)

/-- First issuer candidate from the PRM document:
`prm.authorization_servers?.[0] || prm.authorization_server || prm.issuer`. -/
def prmIssuer (prm : Prm) : Option String :=
  jsOrStr (prm.authorization_servers.bind List.head?)
    (jsOrStr prm.authorization_server prm.issuer)

/-- `getASMetadata`: fetch the AS metadata (oracle) and stamp the resolved
issuer onto it when it has no truthy `issuer` field. -/
def getASMetadata (env : Env) (issuer : String) (w : W) :
    Except String AsMeta × W :=
  let w := logEv w .asFetch
  match env.asMetaResp with
  | .error e => (.error e, w)
  | .ok json =>
      let json := if jsTruthyStr json.issuer then json else { json with issuer := some issuer }
      (.ok json, w)

/-- `discover`: return the cached AS metadata when it has a truthy issuer;
otherwise fetch PRM, extract the issuer, fetch AS metadata, validate the
two required endpoints, persist and return. -/
def discover (env : Env) (w : W) : Except String AsMeta × W :=
  match w.disc with
  | some cached =>
      if jsTruthyStr cached.issuer then (.ok cached, w) else discoverFresh env w
  | none => discoverFresh env w
where
  discoverFresh (env : Env) (w : W) : Except String AsMeta × W :=
    let w := logEv w .prmFetch
    match env.prmResp with
    | .error e => (.error e, w)
    | .ok prm =>
        match prmIssuer prm with
        | none => (.error "[prm] no authorization server listed", w)
        | some issuer =>
            if issuer = "" then (.error "[prm] no authorization server listed", w)
            else
              match getASMetadata env issuer w with
              | (.error e, w) => (.error e, w)
              | (.ok asMeta, w) =>
                  if ¬ jsTruthyStr asMeta.authorization_endpoint ∨
                     ¬ jsTruthyStr asMeta.token_endpoint then
                    (.error "[as] invalid AS metadata: missing endpoints", w)
                  else
                    (.ok asMeta, { w with disc := some asMeta })

/-- The configured redirect URI (hard-coded CONFIG). -/
def OAUTH_REDIRECT_URI : String := "http://127.0.0.1:38573/callback"

/-- Message thrown when no registration endpoint is advertised. -/
def noRegEndpointMsg : String :=
  "[oidc] no registration endpoint: enable DCR or pre-provision a client"

/-- `dynamicRegister`: reuse the cached registration when its issuer matches;
fail when no registration endpoint is advertised; otherwise POST the fixed
registration payload and persist the result. -/
def dynamicRegister (env : Env) (as : AsMeta) (w : W) :
    Except String ClientMeta × W :=
  match w.client with
  | some c =>
      if as.issuer = some c.issuer then (.ok c, w) else registerFresh env as w
  | none => registerFresh env as w
where
  registerFresh (env : Env) (as : AsMeta) (w : W) : Except String ClientMeta × W :=
    if ¬ jsTruthyStr as.registration_endpoint then (.error noRegEndpointMsg, w)
    else
      let w := logEv w .regPost
      match env.regResp with
      | .error e => (.error e, w)
      | .ok reg =>
          let meta : ClientMeta :=
            { issuer := (as.issuer).getD ""
              client_id := reg.client_id
              redirect_uris := reg.redirect_uris.getD [OAUTH_REDIRECT_URI] }
          (.ok meta, { w with client := some meta })

/-- `ensureClient` is an alias for `dynamicRegister`. -/
def ensureClient (env : Env) (as : AsMeta) (w : W) :
    Except String ClientMeta × W :=
  dynamicRegister env as w

/-- JavaScript `tok.expires_in || 3600`: absent and 0 are both falsy. -/
def jsLifetime : Option Int → Int
  | none => 3600
  | some n => if n = 0 then 3600 else n

/-- The token record `fetchToken` builds from a successful response:
`expires_at = now + (expires_in || 3600) - 30`. -/
def tokOfBody (now : Int) (body : TokBody) : Tok :=
  { access_token := body.access_token
    refresh_token := body.refresh_token
    expires_at := now + jsLifetime body.expires_in - 30 }

/-- `fetchToken`: POST to the token endpoint (oracle, indexed by the number
of prior token calls); on a non-success response throw without touching the
token store; on success stamp `expires_at` and persist the record. -/
def fetchToken (env : Env) (g : Grant) (w : W) : Except String Tok × W :=
  let resp := env.tokenResps w.tokenCalls
  let w := logEv { w with tokenCalls := w.tokenCalls + 1 } (.tokenPost g)
  match resp with
  | .error e => (.error e, w)
  | .ok body =>
      let t := tokOfBody env.now body
      (.ok t, { w with tokens := some t })

/-- `interactiveLogin`: generate PKCE and state, open the browser, await the
single-use callback (oracle), then exchange the code at the token endpoint.
A callback failure (missing code / state mismatch) rejects without any
token call. -/
def interactiveLogin (env : Env) (w : W) : Except String Tok × W :=
  let w := logEv w .loginStart
  match env.loginCb with
  | .error e => (.error e, w)
  | .ok _code => fetchToken env .authCode w

/-- `ensureToken`: fast path when the cached token expires more than 60 s
from now; otherwise silent refresh when a truthy refresh token exists
(errors swallowed, falling through); otherwise interactive login. -/
def ensureToken (env : Env) (w : W) : Except String Tok × W :=
  match w.tokens with
  | some tok =>
      if tok.expires_at > env.now + 60 then (.ok tok, w)
      else if jsTruthyStr tok.refresh_token then
        match fetchToken env .refreshGrant w with
        | (.ok t, w') => (.ok t, w')
        | (.error _, w') => interactiveLogin env w'
      else interactiveLogin env w
  | none => interactiveLogin env w

/-- `forwardJsonRpcToRemote`: POST the payload with the bearer token; a 401
throws `UNAUTHORIZED`, any other non-success status throws a `[remote]`
error, a success returns the parsed JSON body. -/
def forwardJsonRpcToRemote (env : Env) (accessToken : String) (w : W) :
    Except String Json × W :=
  let resp := env.forwardResps w.forwardCalls
  let w := logEv { w with forwardCalls := w.forwardCalls + 1 } (.forwardPost accessToken)
  if resp.status = 401 then (.error "UNAUTHORIZED", w)
  else if ¬ fwdOk resp then
    (.error ("[remote] " ++ toString resp.status ++ ": " ++ resp.text), w)
  else (.ok resp.body, w)

/-- JavaScript `json.id ?? null`: a member access on the null payload
throws a TypeError; any other payload yields the `id` member, with an
absent member (and every non-object payload, whose member access yields
undefined) coalescing to null. -/
def jsGetId (j : Json) : Except String Json :=
  match j with
  | .null => .error "Cannot read properties of null (reading 'id')"
  | .obj fs =>
      match fs.lookup "id" with
      | some v => .ok v
      | none => .ok .null
  | _ => .ok .null

/-- Build a JSON-RPC error response object, field order as in the source. -/
def rpcError (code : Int) (msg : String) (id : Json) : Json :=
  .obj [("jsonrpc", .str "2.0"), ("id", id),
        ("error", .obj [("code", .num code), ("message", .str msg)])]

/-- `handleRequest`: discover, ensure client, ensure token, forward; on an
`UNAUTHORIZED` forward failure call `ensureToken` again and retry the
forward exactly once (errors of the retry propagate); any other forward
failure becomes a normal -32001 error response. Errors thrown before the
first forward propagate to the caller. -/
def handleRequest (env : Env) (w : W) (j : Json) : Except String Json × W :=
  match discover env w with
  | (.error e, w) => (.error e, w)
  | (.ok as, w) =>
      match ensureClient env as w with
      | (.error e, w) => (.error e, w)
      | (.ok _client, w) =>
          match ensureToken env w with
          | (.error e, w) => (.error e, w)
          | (.ok tok, w) =>
              match forwardJsonRpcToRemote env tok.access_token w with
              | (.ok body, w) => (.ok body, w)
              | (.error e, w) =>
                  if e = "UNAUTHORIZED" then
                    match ensureToken env w with
                    | (.error e2, w) => (.error e2, w)
                    | (.ok tok2, w) => forwardJsonRpcToRemote env tok2.access_token w
                  else
                    match jsGetId j with
                    | .error te => (.error te, w)
                    | .ok idv => (.ok (rpcError (-32001) e idv), w)

/-- The characters `String.prototype.trim` strips (ECMAScript WhiteSpace
plus LineTerminator): tab, VT, FF, space, NBSP, ZWNBSP, the Unicode Zs
space separators, and LF, CR, LS, PS. -/
def jsIsWs (c : Char) : Bool :=
  c = ' ' ∨ c = '\t' ∨ c = '\x0b' ∨ c = '\x0c' ∨ c = '\r' ∨ c = '\n'
  ∨ c.toNat = 0xa0 ∨ c.toNat = 0xfeff
  ∨ c.toNat = 0x2028 ∨ c.toNat = 0x2029
  ∨ c.toNat = 0x1680 ∨ (0x2000 ≤ c.toNat ∧ c.toNat ≤ 0x200a)
  ∨ c.toNat = 0x202f ∨ c.toNat = 0x205f ∨ c.toNat = 0x3000

/-- Model of `line.trim()`. -/
def jsTrim (s : String) : String :=
  String.mk (((s.data.dropWhile jsIsWs).reverse.dropWhile jsIsWs).reverse)

/-- One iteration of the stdin while-loop on a complete line: skip blank
lines; a parse failure (oracle `parse`) writes the fixed -32700 response;
otherwise run `handleRequest`, writing its result or, when it throws, a
-32000 error response — unless building that response itself throws (the
TypeError of `j.id` on a null payload), which escapes the catch as an
unhandled rejection. Returns the output line written, if any. -/
def processLine (parse : String → Option Json) (env : Env) (w : W)
    (line : String) : Except String (Option String) × W :=
  let t := jsTrim line
  if t = "" then (.ok none, w)
  else
    match parse t with
    | none => (.ok (some (stringifyJson (rpcError (-32700) "Parse error" .null))), w)
    | some j =>
        match handleRequest env w j with
        | (.ok r, w) => (.ok (some (stringifyJson r)), w)
        | (.error e, w) =>
            match jsGetId j with
            | .error te => (.error te, w)
            | .ok idv => (.ok (some (stringifyJson (rpcError (-32000) e idv))), w)

/-- The stdin loop over the complete lines of the buffer: outputs written,
final world, and whether the process crashed. A throw escaping a line's
catch (the null-payload TypeError) is an unhandled rejection: no line is
written for it, later lines are not processed, and the process exits
(Node 15+), recorded in the final component. -/
def processLines (parse : String → Option Json) (env : Env) (w : W) :
    List String → List String × W × Bool
  | [] => ([], w, false)
  | l :: ls =>
      match processLine parse env w l with
      | (.error _te, w') => ([], w', true)
      | (.ok none, w') => processLines parse env w' ls
      | (.ok (some out), w') =>
          match processLines parse env w' ls with
          | (outs, rest) => (out :: outs, rest)

/-! ### PKCE: base64url and SHA-256 (`b64url`, `genPKCE`) -/

/-- The standard base64 alphabet, as used by `Buffer.toString('base64')`. -/
def b64Alphabet : List Char :=
  ['A','B','C','D','E','F','G','H','I','J','K','L','M','N','O','P',
   'Q','R','S','T','U','V','W','X','Y','Z',
   'a','b','c','d','e','f','g','h','i','j','k','l','m','n','o','p',
   'q','r','s','t','u','v','w','x','y','z',
   '0','1','2','3','4','5','6','7','8','9','+','/']

/-- The URL-safe base64 alphabet (RFC 4648 §5). -/
def b64UrlAlphabet : List Char :=
  ['A','B','C','D','E','F','G','H','I','J','K','L','M','N','O','P',
   'Q','R','S','T','U','V','W','X','Y','Z',
   'a','b','c','d','e','f','g','h','i','j','k','l','m','n','o','p',
   'q','r','s','t','u','v','w','x','y','z',
   '0','1','2','3','4','5','6','7','8','9','-','_']

def b64At (i : Nat) : Char := b64Alphabet.getD i 'A'

def b64UrlAt (i : Nat) : Char := b64UrlAlphabet.getD i 'A'

/-- Standard padded base64 of a byte list, three bytes per group. -/
def b64Chars : List Nat → List Char
  | [] => []
  | [b1] => [b64At (b1 / 4), b64At (b1 % 4 * 16), '=', '=']
  | [b1, b2] => [b64At (b1 / 4), b64At (b1 % 4 * 16 + b2 / 16), b64At (b2 % 16 * 4), '=']
  | b1 :: b2 :: b3 :: rest =>
      b64At (b1 / 4) :: b64At (b1 % 4 * 16 + b2 / 16) ::
      b64At (b2 % 16 * 4 + b3 / 64) :: b64At (b3 % 64) :: b64Chars rest

/-- The character replacement of `b64url`: `+` to `-` and `/` to `_`. -/
def b64urlRepl (c : Char) : Char :=
  if c = '+' then '-' else if c = '/' then '_' else c

/-- Strip the trailing `=` padding, as `replace(/=+$/, '')` does. -/
def stripEqPad (l : List Char) : List Char :=
  (l.reverse.dropWhile (fun c => c = '=')).reverse

/-- `b64url` from the source: standard base64, then `+/` replaced by `-_`
and the trailing padding stripped. -/
def b64url (bytes : List Nat) : String :=
  String.mk (stripEqPad ((b64Chars bytes).map b64urlRepl))

/-- URL-safe unpadded base64, written directly from the spec's words
("URL-safe, unpadded base64 encoding"): the reference encoding `b64url`
is compared against. -/
def b64urlDirectChars : List Nat → List Char
  | [] => []
  | [b1] => [b64UrlAt (b1 / 4), b64UrlAt (b1 % 4 * 16)]
  | [b1, b2] => [b64UrlAt (b1 / 4), b64UrlAt (b1 % 4 * 16 + b2 / 16), b64UrlAt (b2 % 16 * 4)]
  | b1 :: b2 :: b3 :: rest =>
      b64UrlAt (b1 / 4) :: b64UrlAt (b1 % 4 * 16 + b2 / 16) ::
      b64UrlAt (b2 % 16 * 4 + b3 / 64) :: b64UrlAt (b3 % 64) :: b64urlDirectChars rest

def b64urlDirect (bytes : List Nat) : String := String.mk (b64urlDirectChars bytes)

/-! SHA-256 (FIPS 180-4), the model of `createHash('sha256')`, over byte
lists with 32-bit words as naturals reduced mod 2^32. -/

def pow32 : Nat := 4294967296

def rotr32 (n x : Nat) : Nat := ((x >>> n) ||| (x <<< (32 - n))) % pow32

def bnot32 (x : Nat) : Nat := 4294967295 - x % pow32

def chooseF (x y z : Nat) : Nat := (x &&& y) ^^^ (bnot32 x &&& z)

def majF (x y z : Nat) : Nat := (x &&& y) ^^^ (x &&& z) ^^^ (y &&& z)

def bigSigA (x : Nat) : Nat := rotr32 2 x ^^^ rotr32 13 x ^^^ rotr32 22 x

def bigSigE (x : Nat) : Nat := rotr32 6 x ^^^ rotr32 11 x ^^^ rotr32 25 x

def smallSigA (x : Nat) : Nat := rotr32 7 x ^^^ rotr32 18 x ^^^ (x >>> 3)

def smallSigE (x : Nat) : Nat := rotr32 17 x ^^^ rotr32 19 x ^^^ (x >>> 10)

def sha256K : List Nat :=
  [1116352408, 1899447441, 3049323471, 3921009573, 961987163,
   1508970993, 2453635748, 2870763221, 3624381080, 310598401,
   607225278, 1426881987, 1925078388, 2162078206, 2614888103,
   3248222580, 3835390401, 4022224774, 264347078, 604807628,
   770255983, 1249150122, 1555081692, 1996064986, 2554220882,
   2821834349, 2952996808, 3210313671, 3336571891, 3584528711,
   113926993, 338241895, 666307205, 773529912, 1294757372,
   1396182291, 1695183700, 1986661051, 2177026350, 2456956037,
   2730485921, 2820302411, 3259730800, 3345764771, 3516065817,
   3600352804, 4094571909, 275423344, 430227734, 506948616,
   659060556, 883997877, 958139571, 1322822218, 1537002063,
   1747873779, 1955562222, 2024104815, 2227730452, 2361852424,
   2428436474, 2756734187, 3204031479, 3329325298]

/-- 64-bit big-endian byte encoding of the message bit length. -/
def be64 (n : Nat) : List Nat :=
  [n / 2 ^ 56 % 256, n / 2 ^ 48 % 256, n / 2 ^ 40 % 256, n / 2 ^ 32 % 256,
   n / 2 ^ 24 % 256, n / 2 ^ 16 % 256, n / 2 ^ 8 % 256, n % 256]

/-- 32-bit big-endian byte encoding of one hash word. -/
def be32 (n : Nat) : List Nat :=
  [n / 2 ^ 24 % 256, n / 2 ^ 16 % 256, n / 2 ^ 8 % 256, n % 256]

/-- SHA-256 padding: 0x80, zeros to 56 mod 64, then the 64-bit bit length. -/
def shaPad (msg : List Nat) : List Nat :=
  let len := msg.length
  let zeros := (119 - len % 64) % 64
  msg ++ [0x80] ++ List.replicate zeros 0 ++ be64 (len * 8)

/-- Big-endian 32-bit words from bytes. -/
def toWords : List Nat → List Nat
  | b1 :: b2 :: b3 :: b4 :: rest =>
      (b1 * 16777216 + b2 * 65536 + b3 * 256 + b4) :: toWords rest
  | _ => []

/-- One message-schedule extension step, appending word `w[t]` for
`t = length`. -/
def schedStep (ws : List Nat) : List Nat :=
  let n := ws.length
  let g := fun (i : Nat) => ws.getD (n - i) 0
  ws ++ [(g 16 + smallSigA (g 15) + g 7 + smallSigE (g 2)) % pow32]

def sched : Nat → List Nat → List Nat
  | 0, ws => ws
  | k + 1, ws => sched k (schedStep ws)

/-- The eight working variables of the compression function. -/
structure H8 where
  a : Nat
  b : Nat
  c : Nat
  d : Nat
  e : Nat
  f : Nat
  g : Nat
  h : Nat
deriving DecidableEq

def sha256Init : H8 :=
  ⟨1779033703, 3144134277, 1013904242, 2773480762,
   1359893119, 2600822924, 528734635, 1541459225⟩

/-- One compression round: `kw` is `K[t] + W[t]`. -/
def shaRound (st : H8) (kw : Nat) : H8 :=
  let t1 := st.h + bigSigE st.e + chooseF st.e st.f st.g + kw
  let t2 := bigSigA st.a + majF st.a st.b st.c
  ⟨(t1 + t2) % pow32, st.a, st.b, st.c, (st.d + t1) % pow32, st.e, st.f, st.g⟩

def addH8 (x y : H8) : H8 :=
  ⟨(x.a + y.a) % pow32, (x.b + y.b) % pow32, (x.c + y.c) % pow32,
   (x.d + y.d) % pow32, (x.e + y.e) % pow32, (x.f + y.f) % pow32,
   (x.g + y.g) % pow32, (x.h + y.h) % pow32⟩

/-- Process one 64-byte chunk. -/
def shaChunk (st : H8) (chunk : List Nat) : H8 :=
  let ws := sched 48 (toWords chunk)
  let kws := List.zipWith Nat.add sha256K ws
  addH8 st (kws.foldl shaRound st)

/-- Split a padded message into its 64-byte chunks (`k` = chunk count). -/
def chunks64 : Nat → List Nat → List (List Nat)
  | 0, _ => []
  | k + 1, l => l.take 64 :: chunks64 k (l.drop 64)

/-- SHA-256 digest of a byte list, as a 32-byte list. -/
def sha256 (msg : List Nat) : List Nat :=
  let padded := shaPad msg
  let fin := (chunks64 (padded.length / 64) padded).foldl shaChunk sha256Init
  be32 fin.a ++ be32 fin.b ++ be32 fin.c ++ be32 fin.d ++
  be32 fin.e ++ be32 fin.f ++ be32 fin.g ++ be32 fin.h

/-- UTF-8 bytes of the ASCII strings the proxy hashes
(`hash.update(code_verifier)`). -/
def strBytes (s : String) : List Nat := s.data.map Char.toNat

/-- `genPKCE` from the source, with the 32 random bytes as input: the
verifier is the base64url of the randomness and the challenge the base64url
of the SHA-256 digest of the verifier string. -/
def genPKCE (rand : List Nat) : String × String :=
  let code_verifier := b64url rand
  let challenge := sha256 (strBytes code_verifier)
  (code_verifier, b64url challenge)

/-! ### `b64url` agrees with the direct URL-safe unpadded encoding -/

theorem b64Alphabet_length : b64Alphabet.length = 64 := rfl

theorem b64UrlAlphabet_length : b64UrlAlphabet.length = 64 := rfl

/-- Replacing `+/` in the standard alphabet gives the URL-safe alphabet,
index by index (out-of-range indices agree on the default). -/
theorem b64urlRepl_b64At (i : Nat) : b64urlRepl (b64At i) = b64UrlAt i := by
  rcases Nat.lt_or_ge i 64 with h | h
  · exact (by decide : ∀ j, j < 64 → b64urlRepl (b64At j) = b64UrlAt j) i h
  · unfold b64At b64UrlAt
    rw [List.getD_eq_default _ _ (by rw [b64Alphabet_length]; exact h),
      List.getD_eq_default _ _ (by rw [b64UrlAlphabet_length]; exact h)]
    decide

/-- No URL-safe alphabet character is the padding character. -/
theorem b64UrlAt_ne_pad (i : Nat) : ¬ b64UrlAt i = '=' := by
  rcases Nat.lt_or_ge i 64 with h | h
  · exact (by decide : ∀ j, j < 64 → ¬ b64UrlAt j = '=') i h
  · unfold b64UrlAt
    rw [List.getD_eq_default _ _ (by rw [b64UrlAlphabet_length]; exact h)]
    decide

theorem b64urlRepl_pad : b64urlRepl '=' = '=' := rfl

/-- Stripping padding drops a final `=`. -/
theorem stripEqPad_append_pad (xs : List Char) :
    stripEqPad (xs ++ ['=']) = stripEqPad xs := by
  unfold stripEqPad
  simp [List.dropWhile_cons]

/-- Stripping padding passes over a leading non-`=` character. -/
theorem stripEqPad_cons_ne (c : Char) (hc : ¬ c = '=') (xs : List Char) :
    stripEqPad (c :: xs) = c :: stripEqPad xs := by
  unfold stripEqPad
  rw [List.reverse_cons, List.dropWhile_append]
  cases hEmpty : (xs.reverse.dropWhile fun x => decide (x = '=')).isEmpty
  · rw [if_neg Bool.false_ne_true]
    simp
  · rw [if_pos rfl]
    rw [List.isEmpty_iff] at hEmpty
    rw [hEmpty]
    simp [List.dropWhile_cons, hc]

theorem stripEqPad_nil : stripEqPad [] = [] := rfl

/-- Replacing `+/` and stripping the padding of the standard base64 output
yields exactly the direct URL-safe unpadded encoding, group by group. -/
theorem b64map_strip : (l : List Nat) →
    stripEqPad ((b64Chars l).map b64urlRepl) = b64urlDirectChars l
  | [] => rfl
  | [b1] => by
      simp only [b64Chars, b64urlDirectChars, List.map_cons, List.map_nil,
        b64urlRepl_b64At, b64urlRepl_pad]
      rw [show ([b64UrlAt (b1 / 4), b64UrlAt (b1 % 4 * 16), '=', '='] : List Char)
          = ([b64UrlAt (b1 / 4), b64UrlAt (b1 % 4 * 16), '='] ++ ['=']) from rfl,
        stripEqPad_append_pad,
        show ([b64UrlAt (b1 / 4), b64UrlAt (b1 % 4 * 16), '='] : List Char)
          = ([b64UrlAt (b1 / 4), b64UrlAt (b1 % 4 * 16)] ++ ['=']) from rfl,
        stripEqPad_append_pad,
        stripEqPad_cons_ne _ (b64UrlAt_ne_pad _),
        stripEqPad_cons_ne _ (b64UrlAt_ne_pad _), stripEqPad_nil]
  | [b1, b2] => by
      simp only [b64Chars, b64urlDirectChars, List.map_cons, List.map_nil,
        b64urlRepl_b64At, b64urlRepl_pad]
      rw [show ([b64UrlAt (b1 / 4), b64UrlAt (b1 % 4 * 16 + b2 / 16),
            b64UrlAt (b2 % 16 * 4), '='] : List Char)
          = ([b64UrlAt (b1 / 4), b64UrlAt (b1 % 4 * 16 + b2 / 16),
              b64UrlAt (b2 % 16 * 4)] ++ ['=']) from rfl,
        stripEqPad_append_pad,
        stripEqPad_cons_ne _ (b64UrlAt_ne_pad _),
        stripEqPad_cons_ne _ (b64UrlAt_ne_pad _),
        stripEqPad_cons_ne _ (b64UrlAt_ne_pad _), stripEqPad_nil]
  | b1 :: b2 :: b3 :: rest => by
      simp only [b64Chars, b64urlDirectChars, List.map_cons, b64urlRepl_b64At]
      rw [stripEqPad_cons_ne _ (b64UrlAt_ne_pad _),
        stripEqPad_cons_ne _ (b64UrlAt_ne_pad _),
        stripEqPad_cons_ne _ (b64UrlAt_ne_pad _),
        stripEqPad_cons_ne _ (b64UrlAt_ne_pad _),
        b64map_strip rest]

/-- The program's `b64url` (standard base64, `+/` replaced, padding
stripped) equals the direct URL-safe unpadded base64 encoding. -/
theorem b64url_eq_b64urlDirect (bytes : List Nat) :
    b64url bytes = b64urlDirect bytes := by
  unfold b64url b64urlDirect
  rw [b64map_strip bytes]

/-! ### SHA-256 known-answer grounding (FIPS 180-4 test vectors) -/

set_option maxRecDepth 8192 in
theorem sha256_vector_abc :
    sha256 (strBytes "abc") =
      [0xba, 0x78, 0x16, 0xbf, 0x8f, 0x01, 0xcf, 0xea, 0x41, 0x41, 0x40, 0xde,
       0x5d, 0xae, 0x22, 0x23, 0xb0, 0x03, 0x61, 0xa3, 0x96, 0x17, 0x7a, 0x9c,
       0xb4, 0x10, 0xff, 0x61, 0xf2, 0x00, 0x15, 0xad] := by decide

set_option maxRecDepth 8192 in
theorem sha256_vector_empty :
    sha256 [] =
      [0xe3, 0xb0, 0xc4, 0x42, 0x98, 0xfc, 0x1c, 0x14, 0x9a, 0xfb, 0xf4, 0xc8,
       0x99, 0x6f, 0xb9, 0x24, 0x27, 0xae, 0x41, 0xe4, 0x64, 0x9b, 0x93, 0x4c,
       0xa4, 0x95, 0x99, 0x1b, 0x78, 0x52, 0xb8, 0x55] := by decide

set_option maxRecDepth 8192 in
/-- Two-chunk vector: 56 `a` characters force a second padding block. -/
theorem sha256_vector_two_chunks :
    sha256 (List.replicate 56 97) =
      [0xb3, 0x54, 0x39, 0xa4, 0xac, 0x6f, 0x09, 0x48, 0xb6, 0xd6, 0xf9, 0xe3,
       0xc6, 0xaf, 0x0f, 0x5f, 0x59, 0x0c, 0xe2, 0x0f, 0x1b, 0xde, 0x70, 0x90,
       0xef, 0x79, 0x70, 0x68, 0x6e, 0xc6, 0x73, 0x8a] := by decide

/-! ### Interactive-login callback handler -/

/-- An inbound request to the local callback listener: its path and the
`code`/`state` query parameters (`none` when absent). -/
structure CbReq where
  pathname : String
  code : Option String
  state : Option String

/-- Outcome of one callback-listener request. -/
inductive CbStep where
  | notFound : CbStep
  | failedPage : CbStep
  | successPage : String → CbStep
deriving DecidableEq

/-- The callback request handler of `interactiveLogin`: 404 off-path,
reject (400) when the code is missing/falsy or the state does not equal the
generated one, else 200 + resolve. The boolean records whether a close of
the listener is scheduled on that path (`setTimeout(() => srv.close(), 100)`
appears only after a successful resolve). -/
def callbackHandler (genState : String) (req : CbReq) : CbStep × Bool :=
  if req.pathname ≠ "/callback" then (.notFound, false)
  else
    match req.code with
    | none => (.failedPage, false)
    | some rc =>
        if rc = "" then (.failedPage, false)
        else if req.state ≠ some genState then (.failedPage, false)
        else (.successPage rc, true)

/-! ### Shared pipeline lemmas -/

/-- `discover` is a pure cache hit when the stored document has a truthy issuer. -/
theorem discover_cached (env : Env) (w : W) (as : AsMeta)
    (hdisc : w.disc = some as) (hiss : jsTruthyStr as.issuer = true) :
    discover env w = (.ok as, w) := by
  unfold discover
  rw [hdisc]
  simp [hiss]

/-- `ensureClient` is a pure cache hit when the stored registration's issuer
matches. -/
theorem ensureClient_cached (env : Env) (as : AsMeta) (w : W) (c : ClientMeta)
    (hcli : w.client = some c) (hciss : as.issuer = some c.issuer) :
    ensureClient env as w = (.ok c, w) := by
  unfold ensureClient dynamicRegister
  rw [hcli]
  simp [hciss]

/-- No cached registration matches the metadata's issuer. -/
def clientCacheMiss (as : AsMeta) (w : W) : Prop :=
  ∀ c, w.client = some c → ¬ as.issuer = some c.issuer

/-- `ensureClient` throws the registration-endpoint error when the cache
misses and no registration endpoint is advertised; the world is untouched. -/
theorem ensureClient_noreg (env : Env) (as : AsMeta) (w : W)
    (hreg : jsTruthyStr as.registration_endpoint = false)
    (hmiss : clientCacheMiss as w) :
    ensureClient env as w = (.error noRegEndpointMsg, w) := by
  have hfresh : dynamicRegister.registerFresh env as w = (.error noRegEndpointMsg, w) := by
    unfold dynamicRegister.registerFresh
    rw [if_pos (by simp [hreg])]
  unfold ensureClient dynamicRegister
  cases hcli : w.client with
  | none => exact hfresh
  | some c =>
      simp [hfresh, hmiss c hcli]

/-- `ensureToken` fast path: a token expiring more than 60 s in the future
is returned unchanged, with no world change at all. -/
theorem ensureToken_fresh (env : Env) (w : W) (tok : Tok)
    (htok : w.tokens = some tok) (hfresh : tok.expires_at > env.now + 60) :
    ensureToken env w = (.ok tok, w) := by
  unfold ensureToken
  rw [htok]
  simp [hfresh]

/-- A 401 forward response throws `UNAUTHORIZED`. -/
theorem forward_401 (env : Env) (t : String) (w : W)
    (h401 : (env.forwardResps w.forwardCalls).status = 401) :
    forwardJsonRpcToRemote env t w
      = (.error "UNAUTHORIZED",
          logEv { w with forwardCalls := w.forwardCalls + 1 } (.forwardPost t)) := by
  unfold forwardJsonRpcToRemote
  simp [h401]

/-- A 200 forward response returns the parsed body. -/
theorem forward_200 (env : Env) (t : String) (w : W) (b : Json)
    (hst : (env.forwardResps w.forwardCalls).status = 200)
    (hb : (env.forwardResps w.forwardCalls).body = b) :
    forwardJsonRpcToRemote env t w
      = (.ok b,
          logEv { w with forwardCalls := w.forwardCalls + 1 } (.forwardPost t)) := by
  unfold forwardJsonRpcToRemote
  simp [hst, hb, fwdOk]

/-- Count of refresh-grant token posts in a trace. -/
def isRefreshEv : Ev → Bool
  | .tokenPost .refreshGrant => true
  | _ => false

def countRefresh (evs : List Ev) : Nat := (evs.filter isRefreshEv).length

/-- Count of forward posts in a trace. -/
def isForwardEv : Ev → Bool
  | .forwardPost _ => true
  | _ => false

def countForward (evs : List Ev) : Nat := (evs.filter isForwardEv).length

/-! ### C3 -/

def tokC3 : Tok := ⟨"AT3", some "RT3", 5000⟩

def envC3 : Env :=
  ⟨1000, .error "e", .error "e", .error "e", fun _ => .error "e", .error "e",
   fun _ => ⟨200, .null, ""⟩⟩

def wC3 : W := ⟨none, none, some tokC3, 0, 0, []⟩

/-- C3: for every cached token record whose `expires_at` is more than 60
seconds after the current time, `ensureToken` returns it unchanged and the
world is untouched: zero network calls (no discovery, registration, token
or login request) are issued on this path. -/
theorem claimC3_fast_path (env : Env) (w : W) (tok : Tok)
    (htok : w.tokens = some tok) (hfresh : tok.expires_at > env.now + 60) :
    ensureToken env w = (.ok tok, w) :=
  ensureToken_fresh env w tok htok hfresh

theorem claimC3_fast_path_witness :
    ensureToken envC3 wC3 = (.ok tokC3, wC3) :=
  claimC3_fast_path envC3 wC3 tokC3 rfl (by decide)

/-! ### C4 -/

def tokC4 : Tok := ⟨"AT4", some "RT4", 1010⟩

def envC4 : Env :=
  ⟨1000, .error "e", .error "e", .error "e", fun _ => .error "boom", .error "e",
   fun _ => ⟨200, .null, ""⟩⟩

def wC4 : W := ⟨none, none, some tokC4, 0, 0, []⟩

/-- C4: for every cached token with `expires_at` within 60 seconds and a
truthy refresh token, `ensureToken` attempts the refresh-grant token call
(the first and only network event before any login): on success it returns
and persists the new record with no login; on failure it falls back to
`interactiveLogin` instead of surfacing the refresh error. -/
theorem claimC4_refresh_before_login (env : Env) (w : W) (tok : Tok) (rt : String)
    (htok : w.tokens = some tok)
    (hexp : ¬ tok.expires_at > env.now + 60)
    (hrt : tok.refresh_token = some rt) (hrtne : rt ≠ "") :
    (∀ body, env.tokenResps w.tokenCalls = .ok body →
        ensureToken env w =
          (.ok (tokOfBody env.now body),
            { w with
                tokens := some (tokOfBody env.now body)
                tokenCalls := w.tokenCalls + 1
                events := w.events ++ [.tokenPost .refreshGrant] }))
    ∧ (∀ e, env.tokenResps w.tokenCalls = .error e →
        ensureToken env w =
          interactiveLogin env
            { w with
                tokenCalls := w.tokenCalls + 1
                events := w.events ++ [.tokenPost .refreshGrant] }) := by
  constructor
  · intro body hbody
    unfold ensureToken
    rw [htok]
    simp [hexp, jsTruthyStr, hrt, hrtne, fetchToken, hbody, logEv]
  · intro e herr
    unfold ensureToken
    rw [htok]
    simp [hexp, jsTruthyStr, hrt, hrtne, fetchToken, herr, logEv]
    rw [← htok]

theorem claimC4_refresh_before_login_witness :
    ensureToken envC4 wC4 =
      interactiveLogin envC4
        { wC4 with tokenCalls := 1, events := [.tokenPost .refreshGrant] } :=
  (claimC4_refresh_before_login envC4 wC4 tokC4 "RT4" rfl (by decide) rfl
    (by decide)).2 "boom" rfl

/-! ### C10 -/

def envC10 : Env :=
  ⟨1000, .error "e", .error "e", .error "e", fun _ => .error "denied", .error "e",
   fun _ => ⟨200, .null, ""⟩⟩

def wC10 : W := ⟨none, none, some ⟨"OLD", none, 50⟩, 3, 0, []⟩

/-- C10: a token-endpoint call that fails leaves the token store exactly as
it was (the error is thrown before any write); the store is overwritten
with the freshly stamped record only on a successful response. -/
theorem claimC10_error_no_write (env : Env) (g : Grant) (w : W) :
    (∀ e, env.tokenResps w.tokenCalls = .error e →
        fetchToken env g w =
            (.error e, logEv { w with tokenCalls := w.tokenCalls + 1 } (.tokenPost g))
          ∧ (fetchToken env g w).2.tokens = w.tokens)
    ∧ (∀ body, env.tokenResps w.tokenCalls = .ok body →
        (fetchToken env g w).2.tokens = some (tokOfBody env.now body)) := by
  constructor
  · intro e herr
    constructor
    · simp [fetchToken, herr]
    · simp [fetchToken, herr, logEv]
  · intro body hbody
    simp [fetchToken, hbody, logEv]

theorem claimC10_error_no_write_witness :
    fetchToken envC10 .authCode wC10 =
        (.error "denied", logEv { wC10 with tokenCalls := 4 } (.tokenPost .authCode))
      ∧ (fetchToken envC10 .authCode wC10).2.tokens = wC10.tokens :=
  (claimC10_error_no_write envC10 .authCode wC10).1 "denied" rfl

/-! ### C7 -/

def envC7 : Env :=
  ⟨1000, .error "e", .error "e", .error "e", fun _ => .ok ⟨"A7", none, some 0⟩,
   .error "e", fun _ => ⟨200, .null, ""⟩⟩

def wC7 : W := ⟨none, none, none, 0, 0, []⟩

/-- C7 counterexample: a successful exchange whose response declares
`expires_in = 0` is stamped `expires_at = now + 3600 - 30` (the JavaScript
`||` default treats a declared 0 as absent), not `now + 0 - 30` as the
claim's formula demands. -/
theorem claimC7_counterexample :
    (fetchToken envC7 .authCode wC7).1 = .ok ⟨"A7", none, 4570⟩
    ∧ ¬ ((4570 : Int) = 1000 + 0 - 30) :=
  ⟨rfl, by decide⟩

/-- C7 amended: every successful token exchange stamps
`expires_at = now + lifetime - 30` and persists the record, where the
lifetime is the declared `expires_in` except that both an absent and a
declared-zero `expires_in` default to 3600. -/
theorem claimC7_expires_at (env : Env) (g : Grant) (w : W) (body : TokBody)
    (hbody : env.tokenResps w.tokenCalls = .ok body) :
    (fetchToken env g w).1 = .ok (tokOfBody env.now body)
    ∧ (tokOfBody env.now body).expires_at = env.now + jsLifetime body.expires_in - 30
    ∧ (fetchToken env g w).2.tokens = some (tokOfBody env.now body)
    ∧ (body.expires_in = none → jsLifetime body.expires_in = 3600)
    ∧ (body.expires_in = some 0 → jsLifetime body.expires_in = 3600)
    ∧ (∀ n, body.expires_in = some n → ¬ n = 0 → jsLifetime body.expires_in = n) := by
  refine ⟨by simp [fetchToken, hbody, logEv], rfl, by simp [fetchToken, hbody, logEv], ?_, ?_, ?_⟩
  · intro h
    rw [h]
    simp [jsLifetime]
  · intro h
    rw [h]
    simp [jsLifetime]
  · intro n h hn
    rw [h]
    simp [jsLifetime, hn]

def envC7b : Env :=
  ⟨1000, .error "e", .error "e", .error "e", fun _ => .ok ⟨"A7b", some "R7", some 7200⟩,
   .error "e", fun _ => ⟨200, .null, ""⟩⟩

theorem claimC7_expires_at_witness :
    (fetchToken envC7b .refreshGrant wC7).1
        = .ok (tokOfBody 1000 ⟨"A7b", some "R7", some 7200⟩)
      ∧ (tokOfBody 1000 ⟨"A7b", some "R7", some 7200⟩).expires_at
        = 1000 + jsLifetime (some 7200) - 30
      ∧ (fetchToken envC7b .refreshGrant wC7).2.tokens
        = some (tokOfBody 1000 ⟨"A7b", some "R7", some 7200⟩)
      ∧ ((some 7200 : Option Int) = none → jsLifetime (some 7200) = 3600)
      ∧ ((some 7200 : Option Int) = some 0 → jsLifetime (some 7200) = 3600)
      ∧ (∀ n, (some 7200 : Option Int) = some n → ¬ n = 0 → jsLifetime (some 7200) = n) :=
  claimC7_expires_at envC7b .refreshGrant wC7 ⟨"A7b", some "R7", some 7200⟩ rfl

/-! ### C5 -/

/-- C5: for every generated PKCE pair, the code_challenge equals the
URL-safe, unpadded base64 encoding of the SHA-256 digest of the
code_verifier — stated against the independently defined reference
encoding `b64urlDirect`, with `sha256` grounded separately on FIPS 180-4
known-answer vectors. -/
theorem claimC5_pkce_challenge (rand : List Nat) :
    (genPKCE rand).2 = b64urlDirect (sha256 (strBytes (genPKCE rand).1)) :=
  b64url_eq_b64urlDirect (sha256 (strBytes (b64url rand)))

/-! ### C6 -/

/-- C6: the derived authorization-server metadata URL places the well-known
segment before the issuer's path when a non-root path is present (the
tenants/acme example), and appends it to the bare origin otherwise; the
general component-level statements cover every issuer the parser accepts. -/
theorem claimC6_wellknown :
    asWellKnownFromIssuer "https://idp.example.com/tenants/acme"
        = some "https://idp.example.com/.well-known/oauth-authorization-server/tenants/acme"
    ∧ asWellKnownFromIssuer "https://idp.example.com"
        = some "https://idp.example.com/.well-known/oauth-authorization-server"
    ∧ (∀ protocol host pathname,
        stripTrailingSlashes pathname ≠ "" → stripTrailingSlashes pathname ≠ "/" →
        asWellKnownCore protocol host pathname
          = protocol ++ "//" ++ host ++ wellKnownSeg ++ stripTrailingSlashes pathname)
    ∧ (∀ protocol host pathname,
        stripTrailingSlashes pathname = "" ∨ stripTrailingSlashes pathname = "/" →
        asWellKnownCore protocol host pathname
          = protocol ++ "//" ++ host ++ wellKnownSeg) := by
  refine ⟨by decide, by decide, ?_, ?_⟩
  · intro protocol host pathname h1 h2
    simp [asWellKnownCore, h1, h2]
  · intro protocol host pathname hor
    rcases hor with h1 | h1 <;> simp [asWellKnownCore, h1]

theorem claimC6_wellknown_witness :
    asWellKnownCore "https:" "idp.example.com" "/tenants/acme/"
      = "https:" ++ "//" ++ "idp.example.com" ++ wellKnownSeg
          ++ stripTrailingSlashes "/tenants/acme/" :=
  claimC6_wellknown.2.2.1 "https:" "idp.example.com" "/tenants/acme/"
    (by decide) (by decide)

/-! ### C9 -/

/-- C9 counterexample: a request on the exact callback path with the `code`
parameter absent reaches the terminal Failed outcome (promise rejected),
and no close of the listener is scheduled on that path — teardown is not
guaranteed on both terminal paths. -/
theorem claimC9_counterexample :
    callbackHandler "S" ⟨"/callback", none, some "S"⟩ = (.failedPage, false) :=
  rfl

/-- C9 amended: a close of the single-use listener is scheduled exactly on
the Complete path (success page, code captured); on the Failed path
(missing code or state mismatch) the promise rejects without the listener
being closed, and stray-path requests leave it open too. -/
theorem claimC9_teardown (s : String) (req : CbReq) :
    (callbackHandler s req).2 = true
      ↔ ∃ c, (callbackHandler s req).1 = .successPage c := by
  unfold callbackHandler
  rcases req with ⟨p, rc, st⟩
  dsimp only
  split
  · simp
  · cases rc with
    | none => simp
    | some v =>
        dsimp only
        split
        · simp
        · split
          · simp
          · simp

theorem claimC9_teardown_witness :
    ((callbackHandler "S" ⟨"/callback", some "C", some "S"⟩).2 = true
      ↔ ∃ c, (callbackHandler "S" ⟨"/callback", some "C", some "S"⟩).1
          = .successPage c) :=
  claimC9_teardown "S" ⟨"/callback", some "C", some "S"⟩

/-! ### C8 -/

def envC8 : Env :=
  ⟨1000, .error "e", .error "e", .error "e", fun _ => .error "e", .error "e",
   fun _ => ⟨200, .null, ""⟩⟩

def wC8 : W := ⟨none, none, none, 0, 0, []⟩

def parseNone : String → Option Json := fun _ => none

/-- C8 counterexample: the empty input line is not valid JSON, yet the loop
skips it silently after trimming — no parse-error line is written for it,
against the claim's universal quantification over invalid-JSON lines. -/
theorem claimC8_counterexample :
    (processLines parseNone envC8 wC8 [""]).1 = []
    ∧ ([] : List String)
        ≠ [stringifyJson (rpcError (-32700) "Parse error" .null)] :=
  ⟨rfl, by simp⟩

/-- C8 amended: for every input line that is non-blank after trimming and
does not parse as JSON, the relay writes exactly the fixed -32700 parse
error line and continues with the remaining lines on an unchanged world;
blank lines are skipped silently instead. -/
theorem claimC8_parse_error (parse : String → Option Json) (env : Env) (w : W)
    (line : String) (ls : List String)
    (hne : jsTrim line ≠ "") (hbad : parse (jsTrim line) = none) :
    processLines parse env w (line :: ls)
      = (stringifyJson (rpcError (-32700) "Parse error" .null)
            :: (processLines parse env w ls).1,
          (processLines parse env w ls).2)
    ∧ stringifyJson (rpcError (-32700) "Parse error" .null)
      = "\x7b\"jsonrpc\":\"2.0\",\"id\":null,\"error\":\x7b\"code\":-32700,\"message\":\"Parse error\"\x7d\x7d" := by
  constructor
  · simp [processLines, processLine, hne, hbad]
  · rfl

theorem claimC8_parse_error_witness :
    processLines parseNone envC8 wC8 ["not json"]
      = ([stringifyJson (rpcError (-32700) "Parse error" .null)], wC8, false)
    ∧ stringifyJson (rpcError (-32700) "Parse error" .null)
      = "\x7b\"jsonrpc\":\"2.0\",\"id\":null,\"error\":\x7b\"code\":-32700,\"message\":\"Parse error\"\x7d\x7d" :=
  claimC8_parse_error parseNone envC8 wC8 "not json" [] (by decide) rfl

/-! ### C2 -/

def asC2 : AsMeta :=
  ⟨some "https://as.example", some "https://as.example/authorize",
   some "https://as.example/token", none⟩

def envC2 : Env :=
  ⟨1000, .error "e", .error "e", .error "e", fun _ => .error "e", .error "e",
   fun _ => ⟨200, .null, ""⟩⟩

def wC2 : W := ⟨some asC2, none, none, 0, 0, []⟩

def jC2 : Json :=
  .obj [("jsonrpc", .str "2.0"), ("id", .num 1), ("method", .str "ping")]

def lineC2 : String := "\x7b\"jsonrpc\":\"2.0\",\"id\":1,\"method\":\"ping\"\x7d"

def parseC2 : String → Option Json := fun s => if s = lineC2 then some jC2 else none

/-- C2 amended: when the discovered metadata advertises no registration
endpoint and no cached client registration matches the issuer, the relay
writes an error response with code -32000 — the stdin handler's catch,
since the registration error is thrown before `handleRequest`'s try — whose
message names the missing registration endpoint, and the loop continues on
an unchanged world (the process does not exit); except when the parsed
payload is JSON null, where the `j.id` access in that catch throws a
TypeError: no response line is written for it and the process crashes
(unhandled rejection). -/
theorem claimC2_registration_missing (parse : String → Option Json) (env : Env)
    (w : W) (as : AsMeta) (j : Json) (idv : Json) (line : String) (ls : List String)
    (hdisc : w.disc = some as) (hiss : jsTruthyStr as.issuer = true)
    (hreg : jsTruthyStr as.registration_endpoint = false)
    (hmiss : clientCacheMiss as w)
    (hne : jsTrim line ≠ "") (hj : parse (jsTrim line) = some j)
    (hid : jsGetId j = .ok idv) :
    processLines parse env w (line :: ls)
      = (stringifyJson (rpcError (-32000) noRegEndpointMsg idv)
            :: (processLines parse env w ls).1,
          (processLines parse env w ls).2)
    ∧ (∀ nline, jsTrim nline ≠ "" → parse (jsTrim nline) = some .null →
        processLines parse env w [nline] = ([], w, true)) := by
  have hreq : ∀ jx : Json, handleRequest env w jx = (.error noRegEndpointMsg, w) := by
    intro jx
    unfold handleRequest
    rw [discover_cached env w as hdisc hiss]
    dsimp only
    rw [ensureClient_noreg env as w hreg hmiss]
  constructor
  · simp [processLines, processLine, hne, hj, hreq j, hid]
  · intro nline hnne hnull
    simp [processLines, processLine, hnne, hnull, hreq .null, jsGetId]

theorem claimC2_registration_missing_witness :
    processLines parseC2 envC2 wC2 [lineC2]
      = ([stringifyJson (rpcError (-32000) noRegEndpointMsg (.num 1))], wC2, false) :=
  (claimC2_registration_missing parseC2 envC2 wC2 asC2 jC2 (.num 1) lineC2 []
    rfl rfl rfl (fun c h => Option.noConfusion h) (by decide) rfl rfl).1

/-- C2 counterexample: with cached AS metadata advertising no registration
endpoint and no cached client, the written error response carries code
-32000 — not -32001 as claimed — while its message does name the missing
registration endpoint and the loop continues with the next line. -/
theorem claimC2_counterexample :
    (processLines parseC2 envC2 wC2 [lineC2, lineC2]).1
      = [stringifyJson (rpcError (-32000) noRegEndpointMsg (.num 1)),
          stringifyJson (rpcError (-32000) noRegEndpointMsg (.num 1))]
    ∧ stringifyJson (rpcError (-32000) noRegEndpointMsg (.num 1))
      = "\x7b\"jsonrpc\":\"2.0\",\"id\":1,\"error\":\x7b\"code\":-32000,\"message\":\"[oidc] no registration endpoint: enable DCR or pre-provision a client\"\x7d\x7d"
    ∧ stringifyJson (rpcError (-32000) noRegEndpointMsg (.num 1))
      ≠ stringifyJson (rpcError (-32001) noRegEndpointMsg (.num 1)) := by
  refine ⟨rfl, rfl, ?_⟩
  decide

/-! ### C1 -/

def asC1 : AsMeta :=
  ⟨some "https://as.example", some "https://as.example/authorize",
   some "https://as.example/token", some "https://as.example/register"⟩

def clientC1 : ClientMeta := ⟨"https://as.example", "cid-1", [OAUTH_REDIRECT_URI]⟩

def tokC1 : Tok := ⟨"AT1", some "RT1", 5000⟩

def bodyC1 : Json :=
  .obj [("jsonrpc", .str "2.0"), ("id", .num 1), ("result", .str "pong")]

def jC1 : Json :=
  .obj [("jsonrpc", .str "2.0"), ("id", .num 1), ("method", .str "ping")]

def envC1 : Env :=
  ⟨1000, .error "e", .error "e", .error "e",
   fun _ => .ok ⟨"NEW", some "RT1", some 3600⟩, .error "e",
   fun n => if n = 0 then ⟨401, .null, "Unauthorized"⟩ else ⟨200, bodyC1, ""⟩⟩

def wC1 : W := ⟨some asC1, some clientC1, some tokC1, 0, 0, []⟩

def lineC1 : String := "\x7b\"jsonrpc\":\"2.0\",\"id\":1,\"method\":\"ping\"\x7d"

def parseC1 : String → Option Json := fun s => if s = lineC1 then some jC1 else none

/-- C1 amended: when the first forward of a request returns 401, the relay
calls `ensureToken` a second time and retries the forward exactly once (two
forward posts in total); with the cached token still more than 60 seconds
from expiry, the re-acquisition returns the very same token with zero
refresh calls (the cached token is not invalidated), and a 200 on the retry
makes its body the request's result. -/
theorem claimC1_retry_once (env : Env) (w : W) (as : AsMeta) (c : ClientMeta)
    (tok : Tok) (j : Json) (b : Json)
    (hdisc : w.disc = some as) (hiss : jsTruthyStr as.issuer = true)
    (hcli : w.client = some c) (hciss : as.issuer = some c.issuer)
    (htok : w.tokens = some tok) (hfresh : tok.expires_at > env.now + 60)
    (h401 : (env.forwardResps w.forwardCalls).status = 401)
    (hst : (env.forwardResps (w.forwardCalls + 1)).status = 200)
    (hb : (env.forwardResps (w.forwardCalls + 1)).body = b) :
    handleRequest env w j
      = (.ok b,
          { w with
              forwardCalls := w.forwardCalls + 1 + 1
              events := (w.events ++ [.forwardPost tok.access_token])
                  ++ [.forwardPost tok.access_token] })
    ∧ countRefresh ((handleRequest env w j).2.events) = countRefresh w.events := by
  have main : handleRequest env w j
      = (.ok b,
          { w with
              forwardCalls := w.forwardCalls + 1 + 1
              events := (w.events ++ [.forwardPost tok.access_token])
                  ++ [.forwardPost tok.access_token] }) := by
    unfold handleRequest
    rw [discover_cached env w as hdisc hiss]
    dsimp only
    rw [ensureClient_cached env as w c hcli hciss]
    dsimp only
    rw [ensureToken_fresh env w tok htok hfresh]
    dsimp only
    rw [forward_401 env tok.access_token w h401]
    dsimp only
    rw [if_pos rfl]
    rw [ensureToken_fresh env
      (logEv { w with forwardCalls := w.forwardCalls + 1 }
        (.forwardPost tok.access_token)) tok htok hfresh]
    dsimp only
    rw [forward_200 env tok.access_token
      (logEv { w with forwardCalls := w.forwardCalls + 1 }
        (.forwardPost tok.access_token)) b hst hb]
    simp [logEv]
  refine ⟨main, ?_⟩
  rw [main]
  simp [countRefresh, isRefreshEv]

theorem claimC1_retry_once_witness :
    (handleRequest envC1 wC1 jC1
        = (.ok bodyC1,
            { wC1 with
                forwardCalls := wC1.forwardCalls + 1 + 1
                events := (wC1.events ++ [.forwardPost tokC1.access_token])
                    ++ [.forwardPost tokC1.access_token] }))
    ∧ countRefresh ((handleRequest envC1 wC1 jC1).2.events)
      = countRefresh wC1.events :=
  claimC1_retry_once envC1 wC1 asC1 clientC1 tokC1 jC1 bodyC1
    rfl rfl rfl rfl rfl (by decide) rfl rfl rfl

/-- C1 counterexample: cached token still fresh and refresh token present;
first forward 401, retry 200. The 200 body is the final result and the
forward is retried exactly once, but zero refresh calls are made — not
exactly one as the claim demands: the cached token is reused unchanged, not
treated as invalid. -/
theorem claimC1_counterexample :
    (handleRequest envC1 wC1 jC1).1 = .ok bodyC1
    ∧ countForward (handleRequest envC1 wC1 jC1).2.events = 2
    ∧ countRefresh (handleRequest envC1 wC1 jC1).2.events = 0
    ∧ tokC1.refresh_token = some "RT1"
    ∧ (processLines parseC1 envC1 wC1 [lineC1]).1 = [stringifyJson bodyC1]
    ∧ ¬ countRefresh (handleRequest envC1 wC1 jC1).2.events = 1 := by
  refine ⟨rfl, rfl, rfl, rfl, rfl, by decide⟩

end TemhaProxy
